import Mathlib

/-!
Verification development for the ulta load-testing agent.

Each section shallowly embeds one component of the Python source
(paths cited in the comments) and proves the properties of the
specification against that embedding.
-/

namespace Ulta

/-
Embedding of ulta/common/cancellation.py.

CancellationType is an IntEnum; Cancellation holds the last reason and the
widest level seen so far.  notify widens the level (`if level > current`)
and overwrites the reason; is_set compares levels; raise_on_set raises
CancellationRequest (modelled as Except.error carrying explain()).
-/

inductive CancellationType
| NOT_SET
| GRACEFUL
| FORCED
deriving DecidableEq, Repr

def CancellationType.toNat : CancellationType → Nat
| .NOT_SET => 0
| .GRACEFUL => 1
| .FORCED => 2

structure Cancellation where
  reason : String
  level : CancellationType
deriving DecidableEq, Repr

def Cancellation.init : Cancellation :=
  { reason := "", level := .NOT_SET }

def Cancellation.notify (s : Cancellation) (reason : String) (level : CancellationType) :
    Cancellation :=
  { reason := reason,
    level := if s.level.toNat < level.toNat then level else s.level }

def Cancellation.isSet (s : Cancellation) (t : CancellationType) : Bool :=
  t.toNat ≤ s.level.toNat

def Cancellation.raiseOnSet (s : Cancellation) (t : CancellationType) : Except String Bool :=
  if s.isSet t then Except.error s.reason else Except.ok false

def Cancellation.applyAll (ops : List (String × CancellationType)) (s : Cancellation) :
    Cancellation :=
  ops.foldl (fun st op => st.notify op.1 op.2) s

theorem Cancellation.notify_level (s : Cancellation) (r : String) (l : CancellationType) :
    (s.notify r l).level.toNat = max s.level.toNat l.toNat := by
  unfold Cancellation.notify
  by_cases h : s.level.toNat < l.toNat <;> simp [h] <;> omega

theorem Cancellation.applyAll_level_mono (ops : List (String × CancellationType))
    (s : Cancellation) : s.level.toNat ≤ (Cancellation.applyAll ops s).level.toNat := by
  induction ops generalizing s with
  | nil => simp [Cancellation.applyAll]
  | cons op rest ih =>
    have h1 : s.level.toNat ≤ (s.notify op.1 op.2).level.toNat := by
      rw [Cancellation.notify_level]; omega
    calc s.level.toNat ≤ (s.notify op.1 op.2).level.toNat := h1
      _ ≤ (Cancellation.applyAll rest (s.notify op.1 op.2)).level.toNat := ih _
      _ = (Cancellation.applyAll (op :: rest) s).level.toNat := by
            simp [Cancellation.applyAll]

/-- C6: across every sequence of Cancellation.notify calls the stored level
never decreases (each notify sets it to the max of the current and requested
level while recording the last reason), and after a notify at FORCED level
every subsequent raise_on_set(FORCED) raises CancellationRequest. -/
theorem cancellation_level_monotonic_and_forced_final
    (s : Cancellation) (r m : String) (l : CancellationType)
    (ops : List (String × CancellationType)) :
    (s.notify r l).level.toNat = max s.level.toNat l.toNat
    ∧ (s.notify r l).reason = r
    ∧ s.level.toNat ≤ (Cancellation.applyAll ops s).level.toNat
    ∧ (Cancellation.applyAll ops (s.notify m .FORCED)).raiseOnSet .FORCED
        = Except.error (Cancellation.applyAll ops (s.notify m .FORCED)).reason := by
  refine ⟨Cancellation.notify_level s r l, rfl, Cancellation.applyAll_level_mono ops s, ?_⟩
  have hstart : (s.notify m .FORCED).level.toNat = 2 := by
    rw [Cancellation.notify_level]
    cases s.level <;> simp [CancellationType.toNat]
  have hge : 2 ≤ (Cancellation.applyAll ops (s.notify m .FORCED)).level.toNat := by
    have := Cancellation.applyAll_level_mono ops (s.notify m .FORCED)
    omega
  unfold Cancellation.raiseOnSet Cancellation.isSet
  have : (CancellationType.FORCED.toNat ≤
      (Cancellation.applyAll ops (s.notify m .FORCED)).level.toNat) := by
    simpa [CancellationType.toNat] using hge
  simp [this]

/-
Embedding of ulta/common/state.py.

State._active_errors is a dict keyed by stage+message (StateError._hash);
State.error upserts, State.cleanup(stage) drops every entry of that stage.
GenericObserver.observe classifies an exception e thrown in its scope using
isinstance against the suppress / error / critical tuples; the isinstance
test is abstracted as a boolean relation isinst over exception classes K
(isinst c t means the class c is c itself or a subclass of t).
Calls to Cancellation.notify are additionally logged into notifyLog so the
theorems can speak about which notifications were issued.
-/

structure StateError where
  stage : String
  message : String
deriving DecidableEq, Repr

def stateErrorKey (e : StateError) : String :=
  e.stage ++ e.message

def stateDictInsert (errs : List StateError) (e : StateError) : List StateError :=
  if errs.any (fun x => stateErrorKey x = stateErrorKey e) then
    errs.map (fun x => if stateErrorKey x = stateErrorKey e then e else x)
  else
    errs ++ [e]

def stateCleanup (errs : List StateError) (stage : String) : List StateError :=
  errs.filter (fun e => e.stage ≠ stage)

structure ObserverCtx where
  activeErrors : List StateError
  cancellation : Cancellation
  notifyLog : List (String × CancellationType)
deriving Repr

def observerNotifyGraceful (ctx : ObserverCtx) (msg : String) : ObserverCtx :=
  { ctx with
    cancellation := ctx.cancellation.notify msg .GRACEFUL,
    notifyLog := ctx.notifyLog ++ [(msg, .GRACEFUL)] }

def matchesTuple {K : Type} (isinst : K → K → Bool) (c : K) (tuple : List K) : Bool :=
  tuple.any (fun t => isinst c t)

inductive BodyOutcome (K : Type)
| ok
| cancellationRequest (msg : String)
| raises (cls : K) (msg : String)

inductive ObserveResult (K : Type)
| ok
| raisedCancellation (msg : String)
| suppressed
| reraised (cls : K) (msg : String)
deriving DecidableEq

def observeErrorMessage (stage msg : String) : String :=
  "The error occured at \"" ++ stage ++ "\": " ++ msg

def GenericObserver.observe {K : Type} (isinst : K → K → Bool)
    (stage : String) (suppress error critical : List K)
    (ctx : ObserverCtx) (body : BodyOutcome K) : ObserverCtx × ObserveResult K :=
  let ctx0 : ObserverCtx := { ctx with activeErrors := stateCleanup ctx.activeErrors stage }
  if ctx0.cancellation.isSet .FORCED then
    (ctx0, .raisedCancellation ctx0.cancellation.reason)
  else
    match body with
    | .ok => (ctx0, .ok)
    | .cancellationRequest m => (ctx0, .raisedCancellation m)
    | .raises c m =>
      let msg := observeErrorMessage stage m
      let is_crit := matchesTuple isinst c critical
      let is_suppress := matchesTuple isinst c suppress
      let ctx1 :=
        if matchesTuple isinst c error then
          { ctx0 with activeErrors :=
              stateDictInsert ctx0.activeErrors { stage := stage, message := msg } }
        else ctx0
      if is_crit then
        let ctx2 := observerNotifyGraceful ctx1 msg
        if is_suppress then (ctx2, .suppressed) else (ctx2, .reraised c m)
      else if is_suppress then (ctx1, .suppressed)
      else (ctx1, .reraised c m)

theorem stateCleanup_no_stage (errs : List StateError) (stage : String) :
    (stateCleanup errs stage).all (fun e => e.stage ≠ stage) := by
  rw [List.all_eq_true]
  intro x hx
  exact (List.mem_filter.mp hx).2

theorem stateDictInsert_mem_stage (errs : List StateError) (e : StateError) :
    (stateDictInsert errs e).any (fun x => x.stage = e.stage) = true := by
  unfold stateDictInsert
  by_cases h : errs.any (fun x => stateErrorKey x = stateErrorKey e)
  · simp only [h, if_pos]
    rw [List.any_eq_true] at h ⊢
    obtain ⟨x, hx, hkey⟩ := h
    refine ⟨e, ?_, by simp⟩
    rw [List.mem_map]
    exact ⟨x, hx, by simp [of_decide_eq_true hkey]⟩
  · simp only [h, if_neg, Bool.false_eq_true, not_false_iff]
    rw [List.any_eq_true]
    exact ⟨e, by simp, by simp⟩

/-- C3: for every exception other than CancellationRequest raised inside an
Observer.observe(stage, suppress, error, critical) scope entered with
cancellation below FORCED: the exception is recorded into State under that
stage iff its class matches the error tuple; Cancellation is notified at
GRACEFUL level iff its class matches the critical tuple; the exception is
swallowed iff its class matches the suppress tuple and is re-raised
otherwise, including when it matches critical but not suppress; and a
CancellationRequest is always re-raised. -/
theorem observer_observe_classification {K : Type} (isinst : K → K → Bool)
    (stage : String) (suppress error critical : List K)
    (ctx : ObserverCtx) (c : K) (m cm : String)
    (hnf : ctx.cancellation.isSet .FORCED = false) :
    ((GenericObserver.observe isinst stage suppress error critical ctx
        (.raises c m)).1.activeErrors.any (fun x => x.stage = stage)
      = matchesTuple isinst c error)
    ∧ ((GenericObserver.observe isinst stage suppress error critical ctx
        (.raises c m)).1.notifyLog
      = ctx.notifyLog ++
          (if matchesTuple isinst c critical then
            [(observeErrorMessage stage m, CancellationType.GRACEFUL)] else []))
    ∧ ((GenericObserver.observe isinst stage suppress error critical ctx
        (.raises c m)).2
      = (if matchesTuple isinst c suppress then ObserveResult.suppressed
          else ObserveResult.reraised c m))
    ∧ ((GenericObserver.observe isinst stage suppress error critical ctx
        (.cancellationRequest cm)).2 = ObserveResult.raisedCancellation cm) := by
  have hclean : (stateCleanup ctx.activeErrors stage).any (fun x => x.stage = stage)
      = false := by
    rw [Bool.eq_false_iff]
    intro hany
    rw [List.any_eq_true] at hany
    obtain ⟨x, hx, hst⟩ := hany
    have hall := stateCleanup_no_stage ctx.activeErrors stage
    rw [List.all_eq_true] at hall
    have := hall x hx
    simp at hst this
    exact this hst
  unfold GenericObserver.observe
  simp only [hnf, Bool.false_eq_true, if_neg, not_false_iff]
  refine ⟨?_, ?_, ?_, by trivial⟩
  · by_cases herr : matchesTuple isinst c error
    · simp only [herr, if_pos]
      by_cases hcrit : matchesTuple isinst c critical <;>
        by_cases hsup : matchesTuple isinst c suppress <;>
          simp [hcrit, hsup, observerNotifyGraceful,
            stateDictInsert_mem_stage]
    · simp only [herr, Bool.false_eq_true, if_neg, not_false_iff]
      by_cases hcrit : matchesTuple isinst c critical <;>
        by_cases hsup : matchesTuple isinst c suppress <;>
          simp [hcrit, hsup, observerNotifyGraceful, hclean]
  · by_cases herr : matchesTuple isinst c error <;>
      by_cases hcrit : matchesTuple isinst c critical <;>
        by_cases hsup : matchesTuple isinst c suppress <;>
          simp [herr, hcrit, hsup, observerNotifyGraceful]
  · by_cases herr : matchesTuple isinst c error <;>
      by_cases hcrit : matchesTuple isinst c critical <;>
        by_cases hsup : matchesTuple isinst c suppress <;>
          simp [herr, hcrit, hsup, observerNotifyGraceful]

/-- C3 witness: concrete evaluation of the observer classification with a
two-class hierarchy where the thrown class matches error and critical but
not suppress: the error is recorded, a GRACEFUL notification is issued and
the exception is re-raised. -/
theorem observer_observe_classification_witness :
    ((Cancellation.init.isSet .FORCED) = false)
    ∧ ((GenericObserver.observe (fun a b => a == b) "stage1" [1] [2] [2]
          { activeErrors := [], cancellation := Cancellation.init, notifyLog := [] }
          (.raises (2 : Nat) "boom")).1.activeErrors.any (fun x => x.stage = "stage1")
        = matchesTuple (fun a b => a == b) 2 [2]) := by
  refine ⟨by decide, ?_⟩
  exact (observer_observe_classification (fun a b => a == b) "stage1" [1] [2] [2]
    { activeErrors := [], cancellation := Cancellation.init, notifyLog := [] }
    2 "boom" "cr" (by decide)).1

/-
Embedding of the UltaService.serve_lt_job / UltaService.sustain_job pair
from ulta/service/service.py (lines 226-236 and 364-366).

GenericObserver.observe (ulta/common/state.py line 78) is a contextmanager
generator whose keyword-only parameters are exactly stage, suppress, error
and critical.  sustain_job calls
  observe(stage='execute test', critical=False, exceptions=exceptions, suppress=True)
so the Python call carries the keyword set {stage, critical, exceptions,
suppress}; contextlib instantiates the generator immediately, and a keyword
that is not a parameter raises TypeError at the call.  checkKeywordCall
embeds that keyword check of the Python calling convention.
-/

def observeKeywordParams : List String :=
  ["stage", "suppress", "error", "critical"]

def sustainJobKeywordArgs : List String :=
  ["stage", "critical", "exceptions", "suppress"]

inductive PyError
| typeErrorUnexpectedKeyword (kw : String)
deriving DecidableEq, Repr

def checkKeywordCall (params passed : List String) : Except PyError Unit :=
  match passed.find? (fun k => !(params.contains k)) with
  | some kw => Except.error (.typeErrorUnexpectedKeyword kw)
  | none => Except.ok ()

def UltaService.sustainJob : Except PyError Unit :=
  checkKeywordCall observeKeywordParams sustainJobKeywordArgs

/-
serve_lt_job loops until the job status is finished; each iteration first
checks cancellation.raise_on_set() and then evaluates self.sustain_job() to
enter the observer scope.  The body that would run inside the scope
(serve_lt_signal, get_job_status, claim_job_status - consuming scripted
backend responses) is kept abstract as iterBody: the theorem below holds
for every iterBody, because the TypeError fires before the scope is entered.
-/

inductive LtResponse
| ok
| transientError (name : String)
deriving DecidableEq, Repr

inductive ServeError
| cancellation (msg : String)
| typeError (kw : String)
deriving DecidableEq, Repr

def UltaService.serveLtJobIter (cancel : Cancellation)
    (iterBody : List LtResponse → Except ServeError (Bool × List LtResponse))
    (script : List LtResponse) : Except ServeError (Bool × List LtResponse) :=
  if cancel.isSet .GRACEFUL then Except.error (.cancellation cancel.reason)
  else
    match UltaService.sustainJob with
    | Except.error (.typeErrorUnexpectedKeyword kw) => Except.error (.typeError kw)
    | Except.ok _ => iterBody script

def UltaService.serveLtJob (cancel : Cancellation)
    (iterBody : List LtResponse → Except ServeError (Bool × List LtResponse)) :
    Nat → List LtResponse → Except ServeError (List LtResponse)
| 0, script => Except.ok script
| fuel + 1, script =>
  match UltaService.serveLtJobIter cancel iterBody script with
  | Except.error e => Except.error e
  | Except.ok (done, rest) =>
    if done then Except.ok rest
    else UltaService.serveLtJob cancel iterBody fuel rest

theorem sustainJob_raises_type_error :
    UltaService.sustainJob
      = Except.error (.typeErrorUnexpectedKeyword "exceptions") := by
  rfl

/-- C1 (code bug): with cancellation not set, serve_lt_job raises TypeError
on the keyword argument named exceptions the moment the first iteration
evaluates sustain_job - for every scripted backend behaviour iterBody and
every fuel, no scripted response is consumed and the loop never terminates
normally, contradicting the documented suppression of transient backend
errors by the sustain_job observer scope. -/
theorem serve_lt_job_sustain_observer_type_error
    (cancel : Cancellation) (fuel : Nat) (script : List LtResponse)
    (iterBody : List LtResponse → Except ServeError (Bool × List LtResponse))
    (hnc : cancel.isSet .GRACEFUL = false) :
    UltaService.serveLtJob cancel iterBody (fuel + 1) script
      = Except.error (.typeError "exceptions") := by
  unfold UltaService.serveLtJob UltaService.serveLtJobIter
  rw [sustainJob_raises_type_error]
  simp [hnc]

/-- C1 witness: concrete run of serve_lt_job on a scripted backend with a
transient error followed by a success: the loop dies with the TypeError on
the keyword named exceptions instead of consuming the script. -/
theorem serve_lt_job_sustain_observer_type_error_witness :
    Cancellation.init.isSet .GRACEFUL = false
    ∧ UltaService.serveLtJob Cancellation.init
        (fun s => Except.ok (true, s.drop 2)) 3
        [LtResponse.transientError "GatewayTimeout", LtResponse.ok]
      = Except.error (.typeError "exceptions") := by
  refine ⟨by decide, ?_⟩
  exact serve_lt_job_sustain_observer_type_error Cancellation.init 2
    [LtResponse.transientError "GatewayTimeout", LtResponse.ok]
    (fun s => Except.ok (true, s.drop 2)) (by decide)

/-
Embedding of ulta/common/job_status.py and of
TankClient.get_job_status / extract_error / parse_job_status from
ulta/service/tank_client.py (lines 251-311).

AUTOSTOP_EXIT_CODES is collected by reflection from the external
yandextank AbstractCriterion class (RC_* attributes), which is not part of
this repository; it is therefore kept as a parameter autostopCodes.
-/

def FINISHED_STATUSES_TO_EXIT_CODE_MAPPING : List (String × Int) :=
  [("AUTOSTOPPED", 20), ("FAILED", 1), ("FINISHED", 0), ("STOPPED", 0)]

structure JobStatus where
  status : String
  error : Option String
  error_type : Option String
  exit_code : Option Int
deriving DecidableEq, Repr

def interpretExitCode (exit_code : Option Int) (status : String) : Option Int :=
  match exit_code with
  | some c => some c
  | none => FINISHED_STATUSES_TO_EXIT_CODE_MAPPING.lookup status

def JobStatus.fromStatus (status : String) (error error_type : Option String)
    (exit_code : Option Int) : JobStatus :=
  { status := status, error := error, error_type := error_type,
    exit_code := interpretExitCode exit_code status }

def JobStatus.finished (j : JobStatus) : Bool :=
  (FINISHED_STATUSES_TO_EXIT_CODE_MAPPING.lookup j.status).isSome

structure FinishStatusFile where
  error : String
  tank_msg : String
  exit_code : Option Int
  status_code : Option String
deriving DecidableEq, Repr

def INTERNAL_ERROR_TYPE : String := "internal"

def TankClient.extractError (autostopCodes : List Int) (d : FinishStatusFile) :
    String × Option String :=
  if d.error ≠ "" then (d.error, none)
  else if d.tank_msg ≠ "" then (d.tank_msg, some INTERNAL_ERROR_TYPE)
  else
    match d.exit_code with
    | some c =>
      if c ≠ 0 ∧ ¬ autostopCodes.contains c then ("Unknown generator error", none)
      else ("", none)
    | none => ("", none)

def exitCodeInAutostop (autostopCodes : List Int) (e : Option Int) : Bool :=
  match e with
  | some c => autostopCodes.contains c
  | none => false

def TankClient.parseJobStatus (autostopCodes : List Int) (d : FinishStatusFile) :
    JobStatus :=
  let et := TankClient.extractError autostopCodes d
  let job_status :=
    if et.1 = "" then
      if exitCodeInAutostop autostopCodes d.exit_code then "AUTOSTOPPED"
      else d.status_code.getD "FAILED"
    else "FAILED"
  JobStatus.fromStatus job_status (some et.1) et.2 d.exit_code

def TankClient.getJobStatusFromFile (autostopCodes : List Int)
    (dirExists fileExists : Bool) (parsed : Except Unit FinishStatusFile) : JobStatus :=
  if ¬ dirExists then JobStatus.fromStatus "FINISHED" none none none
  else if ¬ fileExists then JobStatus.fromStatus "FINISHED" none none none
  else
    match parsed with
    | Except.error _ =>
      JobStatus.fromStatus "FAILED" (some "couldn\x27t parse job status file")
        (some INTERNAL_ERROR_TYPE) none
    | Except.ok d => TankClient.parseJobStatus autostopCodes d

/-- C2: with no live worker, get_job_status returns FINISHED with exit code
0 when the test directory or the finish_status.yaml file is missing;
otherwise, parsing the file: a non-empty error field gives that error with
no error_type and status FAILED; an empty error with non-empty tank_msg
gives tank_msg as error with error_type internal and status FAILED; both
empty with exit_code in the autostop set gives AUTOSTOPPED with no error;
both empty with any other nonzero exit_code gives the error message
Unknown generator error; and exit_code 0 or absent gives no error with the
status taken from status_code in the file, FAILED by default. -/
theorem get_job_status_classification (autostopCodes : List Int)
    (d : FinishStatusFile) (c : Int) (fe : Bool)
    (p : Except Unit FinishStatusFile)
    (h0 : autostopCodes.contains 0 = false) :
    (TankClient.getJobStatusFromFile autostopCodes false fe p
        = { status := "FINISHED", error := none, error_type := none, exit_code := some 0 }
      ∧ TankClient.getJobStatusFromFile autostopCodes true false p
        = { status := "FINISHED", error := none, error_type := none, exit_code := some 0 })
    ∧ (d.error ≠ "" →
        (TankClient.parseJobStatus autostopCodes d).status = "FAILED"
        ∧ (TankClient.parseJobStatus autostopCodes d).error = some d.error
        ∧ (TankClient.parseJobStatus autostopCodes d).error_type = none)
    ∧ (d.error = "" → d.tank_msg ≠ "" →
        (TankClient.parseJobStatus autostopCodes d).status = "FAILED"
        ∧ (TankClient.parseJobStatus autostopCodes d).error = some d.tank_msg
        ∧ (TankClient.parseJobStatus autostopCodes d).error_type = some "internal")
    ∧ (d.error = "" → d.tank_msg = "" → d.exit_code = some c →
        autostopCodes.contains c = true →
        (TankClient.parseJobStatus autostopCodes d).status = "AUTOSTOPPED"
        ∧ (TankClient.parseJobStatus autostopCodes d).error = some "")
    ∧ (d.error = "" → d.tank_msg = "" → d.exit_code = some c → c ≠ 0 →
        autostopCodes.contains c = false →
        (TankClient.parseJobStatus autostopCodes d).error
          = some "Unknown generator error"
        ∧ (TankClient.parseJobStatus autostopCodes d).status = "FAILED")
    ∧ (d.error = "" → d.tank_msg = "" → (d.exit_code = some 0 ∨ d.exit_code = none) →
        (TankClient.parseJobStatus autostopCodes d).error = some ""
        ∧ (TankClient.parseJobStatus autostopCodes d).status
            = d.status_code.getD "FAILED") := by
  refine ⟨⟨rfl, rfl⟩, ?_, ?_, ?_, ?_, ?_⟩
  · intro he
    simp [TankClient.parseJobStatus, TankClient.extractError, he,
      JobStatus.fromStatus]
  · intro he ht
    simp [TankClient.parseJobStatus, TankClient.extractError, he, ht,
      JobStatus.fromStatus, INTERNAL_ERROR_TYPE]
  · intro he ht hc hin
    have hin2 : c ∈ autostopCodes := by simpa using hin
    simp [TankClient.parseJobStatus, TankClient.extractError, he, ht, hc, hin2,
      exitCodeInAutostop, JobStatus.fromStatus]
  · intro he ht hc hnz hnin
    have hnin2 : c ∉ autostopCodes := by simpa using hnin
    simp [TankClient.parseJobStatus, TankClient.extractError, he, ht, hc, hnz, hnin2,
      exitCodeInAutostop, JobStatus.fromStatus]
  · intro he ht hc
    have h02 : (0 : Int) ∉ autostopCodes := by simpa using h0
    rcases hc with hc | hc <;>
      simp [TankClient.parseJobStatus, TankClient.extractError, he, ht, hc, h02,
        exitCodeInAutostop, JobStatus.fromStatus]

/-- C2 witness: concrete evaluations of the status classification with the
autostop set containing 21 and 28 (two of the generator RC codes): a
missing directory yields FINISHED exit 0, and an autostop exit code yields
AUTOSTOPPED. -/
theorem get_job_status_classification_witness :
    ([(21 : Int), 28].contains 0 = false)
    ∧ TankClient.getJobStatusFromFile [21, 28] false true
        (Except.ok { error := "", tank_msg := "", exit_code := none, status_code := none })
      = { status := "FINISHED", error := none, error_type := none, exit_code := some 0 }
    ∧ (TankClient.parseJobStatus [21, 28]
        { error := "", tank_msg := "", exit_code := some 21, status_code := some "FINISHED" }).status
      = "AUTOSTOPPED" := by
  have h := get_job_status_classification [21, 28]
    { error := "", tank_msg := "", exit_code := some 21, status_code := some "FINISHED" }
    21 true (Except.ok { error := "", tank_msg := "", exit_code := none, status_code := none })
    (by decide)
  exact ⟨by decide, h.1.1, (h.2.2.2.1 rfl rfl rfl (by decide)).1⟩

/-
Embedding of ulta/common/agent.py and of
LoadtestingAgentService.register / _identify_agent_id / _load_agent_id
from ulta/service/loadtesting_agent_service.py (lines 45-97).

Python string truthiness (None and the empty string are falsy) is modelled
by pyTruthy on Option String.  The agent-id file is modelled by AgentEnv:
fileContent none stands for FileNotFoundError (caught and logged by
_load_agent_id, which then returns the empty string).  File-open attempts
and registration RPCs are logged in RegTrace.
-/

inductive AgentOrigin
| UNKNOWN
| COMPUTE_LT_CREATED
| EXTERNAL
deriving DecidableEq, Repr

structure AgentInfo where
  id : Option String
  name : Option String
  folder_id : Option String
  origin : AgentOrigin
deriving DecidableEq, Repr

def pyTruthy (s : Option String) : Bool :=
  s.getD "" ≠ ""

def AgentInfo.isExternal (a : AgentInfo) : Bool :=
  a.origin == .EXTERNAL

def AgentInfo.isAnonymousExternalAgent (a : AgentInfo) : Bool :=
  a.isExternal && !(pyTruthy a.name)

def AgentInfo.isPersistentExternalAgent (a : AgentInfo) : Bool :=
  a.isExternal && pyTruthy a.name && pyTruthy a.folder_id

structure AgentEnv where
  agentIdFile : Option String
  fileContent : Option String
deriving DecidableEq, Repr

inductive RegCall
| registerAgent
| registerExternalAgent (folder_id : Option String) (name : Option String)
deriving DecidableEq, Repr

structure RegTrace where
  fileReadAttempts : Nat
  regCalls : List RegCall
deriving DecidableEq, Repr

inductive AgentOriginError
| mk
deriving DecidableEq, Repr

def loadAgentId (env : AgentEnv) : String × Nat :=
  match env.agentIdFile with
  | none => ("", 0)
  | some _ =>
    match env.fileContent with
    | none => ("", 1)
    | some content => (content.take 50, 1)

structure IdentifyResult where
  agentId : Except AgentOriginError (Option String)
  trace : RegTrace

def identifyAgentId (agent : AgentInfo) (useCachedAgentId : Bool)
    (env : AgentEnv) (providerAgentId externalAgentId : String) : IdentifyResult :=
  if agent.origin == .COMPUTE_LT_CREATED then
    { agentId := Except.ok (some providerAgentId),
      trace := { fileReadAttempts := 0, regCalls := [.registerAgent] } }
  else
    let loaded := if useCachedAgentId then loadAgentId env else ("", 0)
    if useCachedAgentId && (loaded.1 ≠ "") then
      { agentId := Except.ok (some loaded.1),
        trace := { fileReadAttempts := loaded.2, regCalls := [] } }
    else if agent.isPersistentExternalAgent then
      { agentId := Except.ok (some externalAgentId),
        trace := { fileReadAttempts := loaded.2,
                   regCalls := [.registerExternalAgent agent.folder_id agent.name] } }
    else if agent.isAnonymousExternalAgent then
      { agentId := Except.ok none,
        trace := { fileReadAttempts := loaded.2, regCalls := [] } }
    else
      { agentId := Except.error .mk,
        trace := { fileReadAttempts := loaded.2, regCalls := [] } }

def LoadtestingAgentService.register (agent : AgentInfo) (useCachedAgentId : Bool)
    (env : AgentEnv) (providerAgentId externalAgentId : String) :
    Except AgentOriginError AgentInfo × RegTrace :=
  if pyTruthy agent.id then
    (Except.ok agent, { fileReadAttempts := 0, regCalls := [] })
  else
    let r := identifyAgentId agent useCachedAgentId env providerAgentId externalAgentId
    match r.agentId with
    | Except.error e => (Except.error e, r.trace)
    | Except.ok newId => (Except.ok { agent with id := newId }, r.trace)

set_option maxRecDepth 10000 in
/-- C4 counterexample: an anonymous-external agent (EXTERNAL origin, no
name) with use_cached_agent_id (i.e. no_cache false), an agent_id_file and
a cached id on disk: register() attempts the file read although the agent
is not persistent-external, and the agent id becomes the cached id instead
of staying empty. -/
theorem register_reads_cache_for_anonymous_counterexample :
    (AgentInfo.mk none none (some "folder") .EXTERNAL).isAnonymousExternalAgent = true
    ∧ (AgentInfo.mk none none (some "folder") .EXTERNAL).isPersistentExternalAgent = false
    ∧ (LoadtestingAgentService.register (AgentInfo.mk none none (some "folder") .EXTERNAL)
        true (AgentEnv.mk (some "/etc/ulta/agentid") (some "cached-agent-id"))
        "prov-id" "ext-id").2.fileReadAttempts = 1
    ∧ (LoadtestingAgentService.register (AgentInfo.mk none none (some "folder") .EXTERNAL)
        true (AgentEnv.mk (some "/etc/ulta/agentid") (some "cached-agent-id"))
        "prov-id" "ext-id").2.regCalls = []
    ∧ (LoadtestingAgentService.register (AgentInfo.mk none none (some "folder") .EXTERNAL)
        true (AgentEnv.mk (some "/etc/ulta/agentid") (some "cached-agent-id"))
        "prov-id" "ext-id").1
      = Except.ok (AgentInfo.mk (some "cached-agent-id") none (some "folder") .EXTERNAL) := by
  refine ⟨rfl, rfl, rfl, rfl, ?_⟩
  have ht : ("cached-agent-id").take 50 = "cached-agent-id" := by decide
  simp [LoadtestingAgentService.register, identifyAgentId, loadAgentId, pyTruthy,
    AgentInfo.isPersistentExternalAgent, AgentInfo.isAnonymousExternalAgent,
    AgentInfo.isExternal, ht]

/-- C4 amended: register() on a fresh agent (empty id) attempts the cached
read from agent_id_file exactly when the agent is not provider-created,
no_cache is false and agent_id_file is set - not only for
persistent-external agents; an anonymous-external agent makes no
registration call, and its id stays empty only when no cached id is
obtained, while a cached id on disk becomes its id; a persistent-external
agent with a cached id on disk registers under that cached id with no new
id issued iff no_cache is false (with no_cache true it is issued a fresh
id through register_external_agent). -/
theorem register_cached_id_amended (agent : AgentInfo) (useCachedAgentId : Bool)
    (env : AgentEnv) (providerAgentId externalAgentId : String)
    (hid : agent.id = none) :
    ((LoadtestingAgentService.register agent useCachedAgentId env
        providerAgentId externalAgentId).2.fileReadAttempts
      = if agent.origin ≠ .COMPUTE_LT_CREATED ∧ useCachedAgentId = true
            ∧ env.agentIdFile.isSome = true then 1 else 0)
    ∧ (agent.isAnonymousExternalAgent = true →
        (LoadtestingAgentService.register agent useCachedAgentId env
            providerAgentId externalAgentId).2.regCalls = []
        ∧ ((useCachedAgentId = true ∧ (loadAgentId env).1 ≠ "") →
            (LoadtestingAgentService.register agent useCachedAgentId env
                providerAgentId externalAgentId).1
              = Except.ok { agent with id := some (loadAgentId env).1 })
        ∧ ((useCachedAgentId = false ∨ (loadAgentId env).1 = "") →
            (LoadtestingAgentService.register agent useCachedAgentId env
                providerAgentId externalAgentId).1
              = Except.ok { agent with id := none }))
    ∧ (agent.isPersistentExternalAgent = true →
        ((useCachedAgentId = true ∧ (loadAgentId env).1 ≠ "") →
          (LoadtestingAgentService.register agent useCachedAgentId env
              providerAgentId externalAgentId)
            = (Except.ok { agent with id := some (loadAgentId env).1 },
               { fileReadAttempts := (loadAgentId env).2, regCalls := [] }))
        ∧ (useCachedAgentId = false →
          (LoadtestingAgentService.register agent useCachedAgentId env
              providerAgentId externalAgentId)
            = (Except.ok { agent with id := some externalAgentId },
               { fileReadAttempts := 0,
                 regCalls := [.registerExternalAgent agent.folder_id agent.name] }))) := by
  have hfalsy : pyTruthy agent.id = false := by simp [pyTruthy, hid]
  refine ⟨?_, ?_, ?_⟩
  · unfold LoadtestingAgentService.register identifyAgentId
    simp only [hfalsy, Bool.false_eq_true, if_neg, not_false_iff]
    by_cases hor : agent.origin == AgentOrigin.COMPUTE_LT_CREATED
    · have : agent.origin = .COMPUTE_LT_CREATED := by
        simpa using hor
      simp [hor, this]
    · have hne : agent.origin ≠ .COMPUTE_LT_CREATED := by
        simpa using hor
      cases huc : useCachedAgentId
      · by_cases hpers : agent.isPersistentExternalAgent <;>
          by_cases hanon : agent.isAnonymousExternalAgent <;>
            simp [hor, huc, hne, hpers, hanon]
      · have hreads : (loadAgentId env).2
            = if env.agentIdFile.isSome = true then 1 else 0 := by
          unfold loadAgentId
          cases hf : env.agentIdFile <;> cases hc : env.fileContent <;> simp [hf, hc]
        by_cases hcached : (loadAgentId env).1 ≠ "" <;>
          by_cases hpers : agent.isPersistentExternalAgent <;>
            by_cases hanon : agent.isAnonymousExternalAgent <;>
              simp [hor, huc, hne, hcached, hpers, hanon, hreads]
  · intro hanon
    have hpers : agent.isPersistentExternalAgent = false := by
      unfold AgentInfo.isPersistentExternalAgent
      unfold AgentInfo.isAnonymousExternalAgent at hanon
      cases hname : pyTruthy agent.name
      · simp [hname]
      · rw [hname] at hanon
        simp at hanon
    have hne : agent.origin ≠ .COMPUTE_LT_CREATED := by
      intro h
      unfold AgentInfo.isAnonymousExternalAgent AgentInfo.isExternal at hanon
      rw [h] at hanon
      simp at hanon
    unfold LoadtestingAgentService.register identifyAgentId
    simp only [hfalsy, Bool.false_eq_true, if_neg, not_false_iff]
    have hor : (agent.origin == AgentOrigin.COMPUTE_LT_CREATED) = false := by
      simpa using hne
    cases huc : useCachedAgentId <;>
      by_cases hcached : (loadAgentId env).1 ≠ "" <;>
        simp [hor, huc, hcached, hpers, hanon]
  · intro hpers
    have hne : agent.origin ≠ .COMPUTE_LT_CREATED := by
      intro h
      unfold AgentInfo.isPersistentExternalAgent AgentInfo.isExternal at hpers
      rw [h] at hpers
      simp at hpers
    unfold LoadtestingAgentService.register identifyAgentId
    simp only [hfalsy, Bool.false_eq_true, if_neg, not_false_iff]
    have hor : (agent.origin == AgentOrigin.COMPUTE_LT_CREATED) = false := by
      simpa using hne
    constructor
    · rintro ⟨huc, hcached⟩
      simp [hor, huc, hcached]
    · intro huc
      simp [hor, huc, hpers]

set_option maxRecDepth 10000 in
/-- C4 amended witness: a persistent-external agent with a cached id on
disk and no_cache false registers under the cached id with no registration
RPC issued. -/
theorem register_cached_id_amended_witness :
    (LoadtestingAgentService.register
        (AgentInfo.mk none (some "agent-1") (some "folder") .EXTERNAL) true
        (AgentEnv.mk (some "/etc/ulta/agentid") (some "persistent-cached-id"))
        "prov-id" "ext-id")
      = (Except.ok (AgentInfo.mk (some "persistent-cached-id") (some "agent-1")
          (some "folder") .EXTERNAL),
         { fileReadAttempts := 1, regCalls := [] }) := by
  have h := register_cached_id_amended
    (AgentInfo.mk none (some "agent-1") (some "folder") .EXTERNAL) true
    (AgentEnv.mk (some "/etc/ulta/agentid") (some "persistent-cached-id"))
    "prov-id" "ext-id" rfl
  have h2 := (h.2.2 (by decide)).1 ⟨rfl, by decide⟩
  have hload : loadAgentId
      (AgentEnv.mk (some "/etc/ulta/agentid") (some "persistent-cached-id"))
      = ("persistent-cached-id", 1) := by decide
  rw [hload] at h2
  exact h2

/-
Embedding of ulta/service/status_reporter.py (lines 35-89) together with
TankStatus / IDLE_STATUSES from ulta/service/tank_client.py.

report_tank_status overrides an idle status with ERROR plus the state
summary whenever the service state holds errors; the worker loop catches
FailedPrecondition / NotFound / Unauthorized / Unauthenticated from
claim_tank_status and notifies Cancellation at FORCED with a fixed
message, while any other exception is only logged; on run() scope exit one
final report_tank_status(STOPPED, cancellation.explain()) is attempted.
-/

inductive TankStatus
| STATUS_UNSPECIFIED
| READY_FOR_TEST
| PREPARING_TEST
| TESTING
| TANK_FAILED
| STOPPED
| UPLOADING_ARTIFACTS
| ERROR
deriving DecidableEq, Repr

def IDLE_STATUSES : List TankStatus :=
  [.STATUS_UNSPECIFIED, .READY_FOR_TEST, .STOPPED]

def TankStatus.name : TankStatus → String
| .STATUS_UNSPECIFIED => "STATUS_UNSPECIFIED"
| .READY_FOR_TEST => "READY_FOR_TEST"
| .PREPARING_TEST => "PREPARING_TEST"
| .TESTING => "TESTING"
| .TANK_FAILED => "TANK_FAILED"
| .STOPPED => "STOPPED"
| .UPLOADING_ARTIFACTS => "UPLOADING_ARTIFACTS"
| .ERROR => "ERROR"

def Cancellation.explain (s : Cancellation) : String :=
  s.reason

inductive ControlPlaneError
| failedPrecondition
| notFound
| unauthorized
| unauthenticated
| otherError (name : String)
deriving DecidableEq, Repr

def ControlPlaneError.isAgentRejection : ControlPlaneError → Bool
| .failedPrecondition => true
| .notFound => true
| .unauthorized => true
| .unauthenticated => true
| .otherError _ => false

def agentRejectionMessage : String :=
  "The backend doesn\x27t know this agent: agent has been deleted or account is missing loadtesting.generatorClient role."

structure ClaimCall where
  status : String
  message : Option String
deriving DecidableEq, Repr

def StatusReporter.claimArgs (status : TankStatus) (statusMessage : Option String)
    (stateOk : Bool) (stateSummary : String) : ClaimCall :=
  if IDLE_STATUSES.contains status && !stateOk then
    { status := TankStatus.ERROR.name, message := some stateSummary }
  else
    { status := status.name, message := statusMessage }

def StatusReporter.workerIteration (c : Cancellation)
    (outcome : Option ControlPlaneError) : Cancellation :=
  match outcome with
  | some e =>
    if e.isAgentRejection then c.notify agentRejectionMessage .FORCED else c
  | none => c

def StatusReporter.runWorker (c : Cancellation)
    (outcomes : List (Option ControlPlaneError)) : Cancellation :=
  outcomes.foldl StatusReporter.workerIteration c

def StatusReporter.finalClaim (c : Cancellation) (stateOk : Bool)
    (stateSummary : String) : ClaimCall :=
  StatusReporter.claimArgs .STOPPED (some c.explain) stateOk stateSummary

def isRejectionOutcome (o : Option ControlPlaneError) : Bool :=
  (o.map ControlPlaneError.isAgentRejection).getD false

theorem runWorker_preserves_forced (outs : List (Option ControlPlaneError))
    (c : Cancellation) (hl : c.level = .FORCED) (hr : c.reason = agentRejectionMessage) :
    (StatusReporter.runWorker c outs).level = .FORCED
    ∧ (StatusReporter.runWorker c outs).reason = agentRejectionMessage := by
  induction outs generalizing c with
  | nil => exact ⟨hl, hr⟩
  | cons o rest ih =>
    have hstep : (StatusReporter.workerIteration c o).level = .FORCED
        ∧ (StatusReporter.workerIteration c o).reason = agentRejectionMessage := by
      cases o with
      | none => exact ⟨hl, hr⟩
      | some e =>
        by_cases he : e.isAgentRejection
        · simp [StatusReporter.workerIteration, he, Cancellation.notify, hl,
            CancellationType.toNat]
        · simp [StatusReporter.workerIteration, he, hl, hr]
    exact ih (StatusReporter.workerIteration c o) hstep.1 hstep.2

theorem runWorker_no_rejection_id (outs : List (Option ControlPlaneError))
    (c : Cancellation)
    (hno : outs.all (fun o => !(isRejectionOutcome o)) = true) :
    StatusReporter.runWorker c outs = c := by
  induction outs generalizing c with
  | nil => rfl
  | cons o rest ih =>
    rw [List.all_cons, Bool.and_eq_true] at hno
    have hstep : StatusReporter.workerIteration c o = c := by
      cases o with
      | none => rfl
      | some e =>
        have : e.isAgentRejection = false := by
          have := hno.1
          simpa [isRejectionOutcome] using this
        simp [StatusReporter.workerIteration, this]
    show StatusReporter.runWorker (StatusReporter.workerIteration c o) rest = c
    rw [hstep]
    exact ih c hno.2

set_option maxRecDepth 10000 in
/-- C5 counterexample: the claim_tank_status call raises FailedPrecondition
(so the reporter notifies FORCED), but the service state holds an error at
scope exit, so the final claim_tank_status call is made with status ERROR
and the state summary message rather than STOPPED with the fixed
backend-rejection message. -/
theorem status_reporter_final_stopped_counterexample :
    (StatusReporter.runWorker Cancellation.init [some .failedPrecondition]).level
      = CancellationType.FORCED
    ∧ StatusReporter.finalClaim
        (StatusReporter.runWorker Cancellation.init [some .failedPrecondition])
        false "disk check failed"
      = { status := "ERROR", message := some "disk check failed" }
    ∧ (StatusReporter.finalClaim
        (StatusReporter.runWorker Cancellation.init [some .failedPrecondition])
        false "disk check failed").status ≠ "STOPPED" := by
  refine ⟨rfl, rfl, by decide⟩

/-- C5 amended: whenever the status reporter's claim_tank_status call
raises FailedPrecondition, NotFound, Unauthorized or Unauthenticated, the
reporter notifies Cancellation at FORCED level with the fixed
backend-rejection message, and on exit of its run() scope it makes exactly
one final claim_tank_status call passing status STOPPED and
cancellation.explain(); that call goes out as STOPPED with the
backend-rejection message when the service state has no active errors, and
as ERROR with the state summary otherwise; any other error from the
control plane leaves cancellation untouched and the loop continues. -/
theorem status_reporter_forced_and_final_claim_amended
    (c0 : Cancellation) (outcomes : List (Option ControlPlaneError))
    (stateOk : Bool) (stateSummary : String)
    (hrej : outcomes.any isRejectionOutcome = true) :
    (StatusReporter.runWorker c0 outcomes).level = CancellationType.FORCED
    ∧ (StatusReporter.runWorker c0 outcomes).reason = agentRejectionMessage
    ∧ StatusReporter.finalClaim (StatusReporter.runWorker c0 outcomes)
        stateOk stateSummary
      = (if stateOk then
          ClaimCall.mk "STOPPED" (some agentRejectionMessage)
         else ClaimCall.mk "ERROR" (some stateSummary))
    ∧ (∀ (c1 : Cancellation) (outs : List (Option ControlPlaneError)),
        outs.all (fun o => !(isRejectionOutcome o)) = true →
        StatusReporter.runWorker c1 outs = c1) := by
  have hmain : (StatusReporter.runWorker c0 outcomes).level = CancellationType.FORCED
      ∧ (StatusReporter.runWorker c0 outcomes).reason = agentRejectionMessage := by
    induction outcomes generalizing c0 with
    | nil => simp at hrej
    | cons o rest ih =>
      rw [List.any_cons, Bool.or_eq_true] at hrej
      show (StatusReporter.runWorker (StatusReporter.workerIteration c0 o) rest).level = _
        ∧ (StatusReporter.runWorker (StatusReporter.workerIteration c0 o) rest).reason = _
      rcases hrej with hhead | htail
      · cases o with
        | none => simp [isRejectionOutcome] at hhead
        | some e =>
          have he : e.isAgentRejection = true := by
            simpa [isRejectionOutcome] using hhead
          have hstep : StatusReporter.workerIteration c0 (some e)
              = c0.notify agentRejectionMessage .FORCED := by
            simp [StatusReporter.workerIteration, he]
          rw [hstep]
          have hl : (c0.notify agentRejectionMessage .FORCED).level = .FORCED := by
            cases hc : c0.level <;>
              simp [Cancellation.notify, CancellationType.toNat, hc]
          exact runWorker_preserves_forced rest _ hl rfl
      · exact ih _ htail
  refine ⟨hmain.1, hmain.2, ?_, fun c1 outs h => runWorker_no_rejection_id outs c1 h⟩
  unfold StatusReporter.finalClaim StatusReporter.claimArgs
  have hex : (StatusReporter.runWorker c0 outcomes).explain = agentRejectionMessage := by
    unfold Cancellation.explain
    exact hmain.2
  rw [hex]
  cases stateOk <;> simp [IDLE_STATUSES, TankStatus.name]

set_option maxRecDepth 10000 in
/-- C5 amended witness: a NotFound from claim_tank_status followed by a
transient error: cancellation ends FORCED with the backend-rejection
message, and with a healthy state the final call is STOPPED carrying that
message. -/
theorem status_reporter_forced_and_final_claim_amended_witness :
    ([some ControlPlaneError.notFound,
      some (ControlPlaneError.otherError "Unavailable")].any isRejectionOutcome = true)
    ∧ StatusReporter.finalClaim
        (StatusReporter.runWorker Cancellation.init
          [some ControlPlaneError.notFound,
           some (ControlPlaneError.otherError "Unavailable")]) true "summary"
      = ClaimCall.mk "STOPPED" (some agentRejectionMessage) := by
  refine ⟨by decide, ?_⟩
  have h := status_reporter_forced_and_final_claim_amended Cancellation.init
    [some ControlPlaneError.notFound, some (ControlPlaneError.otherError "Unavailable")]
    true "summary" (by decide)
  simpa using h.2.2.1

/-
Embedding of TankClient.run_job from ulta/service/tank_client.py
(lines 213-218).  After a successful prepare_job the client holds a fresh
multiprocessing Event (unset) and a list of background uploader workers,
none of which has been started; run_job raises TankError when no event
exists, sets the event and starts every worker when the event is unset,
and does nothing when the event is already set.  Worker starts are
counted.
-/

structure TankClientState where
  eventExists : Bool
  eventSet : Bool
  workerStartCounts : List Nat
deriving DecidableEq, Repr

inductive TankError
| mk (msg : String)
deriving DecidableEq, Repr

def TankClient.runJob (s : TankClientState) : Except TankError TankClientState :=
  if !s.eventExists then
    Except.error (.mk "Trying to run job before prepare stage.")
  else if !s.eventSet then
    Except.ok { s with eventSet := true,
                       workerStartCounts := s.workerStartCounts.map (fun c => c + 1) }
  else Except.ok s

/-- C10: on a TankClient where prepare_job succeeded (the shooting event
exists, is unset and no worker has been started), run_job is idempotent:
running it twice equals running it once, the event is set and every
background uploader worker is started exactly once, because the second
call observes the event already set and does nothing. -/
theorem run_job_idempotent (s : TankClientState)
    (hprep : s.eventExists = true) (hunset : s.eventSet = false)
    (hfresh : ∀ c ∈ s.workerStartCounts, c = 0) :
    (TankClient.runJob s).bind TankClient.runJob = TankClient.runJob s
    ∧ ∃ s1, TankClient.runJob s = Except.ok s1
        ∧ s1.eventSet = true
        ∧ (∀ c ∈ s1.workerStartCounts, c = 1)
        ∧ TankClient.runJob s1 = Except.ok s1 := by
  have h1 : TankClient.runJob s
      = Except.ok { s with eventSet := true,
                           workerStartCounts := s.workerStartCounts.map (fun c => c + 1) } := by
    simp [TankClient.runJob, hprep, hunset]
  have h2 : TankClient.runJob
      { s with eventSet := true,
               workerStartCounts := s.workerStartCounts.map (fun c => c + 1) }
      = Except.ok { s with eventSet := true,
                           workerStartCounts := s.workerStartCounts.map (fun c => c + 1) } := by
    simp [TankClient.runJob, hprep]
  refine ⟨?_, ?_⟩
  · rw [h1]
    simpa using h2
  · refine ⟨_, h1, rfl, ?_, h2⟩
    intro c hc
    rw [List.mem_map] at hc
    obtain ⟨c0, hc0, hc0e⟩ := hc
    rw [← hc0e, hfresh c0 hc0]

/-- C10 witness: concrete client state after prepare with two uploader
workers: running twice equals running once and both workers end with start
count one. -/
theorem run_job_idempotent_witness :
    (TankClient.runJob (TankClientState.mk true false [0, 0])).bind TankClient.runJob
      = TankClient.runJob (TankClientState.mk true false [0, 0])
    ∧ TankClient.runJob (TankClientState.mk true false [0, 0])
      = Except.ok (TankClientState.mk true true [1, 1]) := by
  have h := run_job_idempotent (TankClientState.mk true false [0, 0]) rfl rfl
    (by intro c hc; simpa using hc)
  exact ⟨h.1, rfl⟩

/-
Embedding of ulta/common/reporter.py (lines 65-123 and 149-173).

Reporter.report drains new records, and per handler: skips when the
backoff manager forbids an attempt (unless force), otherwise re-releases
the retention-filtered unsent deque, sorts everything by timestamp, chops
it into batches of at most get_max_batch_size() or 1, calls handle on each
nonempty chunk (handlerFails says which chunks raise), re-queues failed
chunks, and records failure = (number of errors == number of chunks) into
the attempt manager.  _AttemptManager.record on failure sets the next
attempt to now + min(current, max) and doubles the current delay up to the
cap; on success it resets.
-/

structure UnsentMessage (α : Type) where
  ts : Int
  data : α
deriving DecidableEq, Repr

structure AttemptManager where
  nextAttempt : Int
  multiplier : Int
  maxDelay : Int
  baseDelay : Int
  currentDelay : Int
deriving DecidableEq, Repr

def AttemptManager.initial : AttemptManager :=
  { nextAttempt := 0, multiplier := 2, maxDelay := 600, baseDelay := 2, currentDelay := 2 }

def AttemptManager.canAttempt (m : AttemptManager) (nowT : Int) : Bool :=
  m.nextAttempt ≤ nowT

def AttemptManager.record (m : AttemptManager) (failure : Bool) (nowT : Int) :
    AttemptManager :=
  if !failure then { m with nextAttempt := 0, currentDelay := m.baseDelay }
  else
    { m with nextAttempt := nowT + min m.currentDelay m.maxDelay,
             currentDelay := min (m.currentDelay * m.multiplier) m.maxDelay }

def chop {α : Type} (data : List α) (size : Int) : List (List α) :=
  let size2 : Int := if size ≤ 0 then (data.length : Int) + 1 else size
  let sz : Nat := size2.toNat
  let n : Nat := data.length / sz
  let rem : Nat := data.length % sz
  let chunks := (List.range n).map (fun i => (data.drop (i * sz)).take sz)
  if rem ≠ 0 then chunks ++ [data.drop (data.length - rem)] else chunks

def insertByTs {α : Type} (x : UnsentMessage α) :
    List (UnsentMessage α) → List (UnsentMessage α)
| [] => [x]
| y :: l => if x.ts ≤ y.ts then x :: y :: l else y :: insertByTs x l

def sortByTs {α : Type} : List (UnsentMessage α) → List (UnsentMessage α)
| [] => []
| x :: l => insertByTs x (sortByTs l)

def effectiveBatchSize (maxBatch : Option Int) : Int :=
  match maxBatch with
  | none => 1
  | some v => if v = 0 then 1 else v

structure HandlerRound (α : Type) where
  attemptedChunks : List (List α)
  errorsCount : Nat
  newUnsent : List (UnsentMessage α)
  newMgr : AttemptManager

def Reporter.reportHandler {α : Type} (force : Bool) (retention nowT : Int)
    (records : List (UnsentMessage α)) (handlerFails : List α → Bool)
    (maxBatch : Option Int) (unsent : List (UnsentMessage α)) (mgr : AttemptManager) :
    HandlerRound α :=
  if !force && !(mgr.canAttempt nowT) then
    { attemptedChunks := [], errorsCount := 0,
      newUnsent := unsent ++ records, newMgr := mgr }
  else
    let released := unsent.filter (fun m => nowT - retention ≤ m.ts)
    let allMessages := sortByTs (released ++ records)
    let toSend := chop allMessages (effectiveBatchSize maxBatch)
    let nonEmpty := toSend.filter (fun chunk => !chunk.isEmpty)
    let failed := nonEmpty.filter (fun chunk => handlerFails (chunk.map (fun m => m.data)))
    { attemptedChunks := nonEmpty.map (fun chunk => chunk.map (fun m => m.data)),
      errorsCount := failed.length,
      newUnsent := failed.flatten,
      newMgr := mgr.record (decide (failed.length = toSend.length)) nowT }

/-- C9: when report(force=false) runs while the handler can attempt, no
new records were drained and the unsent deque is empty, no handle call is
made, yet the round is recorded as a failure (zero errors equals zero
chunks): the next-attempt time moves into the future by min(delay, 600)
and the delay doubles up to the 600-second cap although nothing was
attempted. -/
theorem reporter_empty_round_counts_as_failure {α : Type} (retention nowT : Int)
    (handlerFails : List α → Bool) (maxBatch : Option Int) (mgr : AttemptManager)
    (hcan : mgr.canAttempt nowT = true) (hd : 0 < mgr.currentDelay)
    (hmax : mgr.maxDelay = 600) (hmul : mgr.multiplier = 2) :
    (Reporter.reportHandler false retention nowT ([] : List (UnsentMessage α))
        handlerFails maxBatch [] mgr).attemptedChunks = []
    ∧ (Reporter.reportHandler false retention nowT ([] : List (UnsentMessage α))
        handlerFails maxBatch [] mgr).newMgr.nextAttempt
      = nowT + min mgr.currentDelay 600
    ∧ nowT < (Reporter.reportHandler false retention nowT ([] : List (UnsentMessage α))
        handlerFails maxBatch [] mgr).newMgr.nextAttempt
    ∧ (Reporter.reportHandler false retention nowT ([] : List (UnsentMessage α))
        handlerFails maxBatch [] mgr).newMgr.currentDelay
      = min (mgr.currentDelay * 2) 600 := by
  have hchop : chop (sortByTs (([] : List (UnsentMessage α)).filter
      (fun m => nowT - retention ≤ m.ts) ++ []))
      (effectiveBatchSize maxBatch) = [] := by
    simp only [List.filter_nil, List.nil_append, sortByTs]
    unfold chop
    simp
  have hall : Reporter.reportHandler false retention nowT ([] : List (UnsentMessage α))
      handlerFails maxBatch [] mgr
      = { attemptedChunks := [], errorsCount := 0, newUnsent := [],
          newMgr := mgr.record true nowT } := by
    unfold Reporter.reportHandler
    rw [hcan]
    simp only [Bool.not_true, Bool.and_false, Bool.false_eq_true, if_neg, not_false_iff]
    rw [hchop]
    simp
  have hrec : mgr.record true nowT
      = { mgr with nextAttempt := nowT + min mgr.currentDelay mgr.maxDelay,
                   currentDelay := min (mgr.currentDelay * mgr.multiplier) mgr.maxDelay } := by
    simp [AttemptManager.record]
  rw [hall, hrec, hmax, hmul]
  refine ⟨rfl, rfl, ?_, rfl⟩
  show nowT < nowT + min mgr.currentDelay 600
  have hpos : 0 < min mgr.currentDelay 600 := lt_min hd (by norm_num)
  omega

/-- C9 witness: with the default attempt manager (base delay 2, cap 600)
at time 100, an empty forced-off round moves the next attempt to 102 and
doubles the delay to 4 without attempting any chunk. -/
theorem reporter_empty_round_counts_as_failure_witness :
    AttemptManager.initial.canAttempt 100 = true
    ∧ (Reporter.reportHandler false 3600 100 ([] : List (UnsentMessage Nat))
        (fun _ => false) (some 10) [] AttemptManager.initial).attemptedChunks = []
    ∧ (Reporter.reportHandler false 3600 100 ([] : List (UnsentMessage Nat))
        (fun _ => false) (some 10) [] AttemptManager.initial).newMgr.nextAttempt = 102
    ∧ (Reporter.reportHandler false 3600 100 ([] : List (UnsentMessage Nat))
        (fun _ => false) (some 10) [] AttemptManager.initial).newMgr.currentDelay = 4 := by
  have h := reporter_empty_round_counts_as_failure (α := Nat) 3600 100
    (fun _ => false) (some 10) AttemptManager.initial (by decide) (by decide)
    rfl rfl
  exact ⟨by decide, h.1, by rw [h.2.1]; decide, by rw [h.2.2.2]; decide⟩

/-
Embedding of FilesystemCleanup from ulta/common/file_system.py
(lines 127-271).  Paths are posix strings; Path.resolve and Path.exists
are parameters of the model (resolve is idempotent on a real filesystem,
which is the hypothesis of the safety theorem).  The forbidden set is
built in __init__ from stpd-cache, tests_dir, tmp_dir, lunapark, the
job test_data_dir and its non-test_data_ twin (str.replace) and
artifact_dir_path, keeping only existing paths, resolved.  Each cleanup
operation collects candidate children filtered by _is_forbiden, sorts
them by ctime and deletes a prefix of that order (the break on free
space / ttl is abstracted by the deleteCount prefix length).
-/

structure FS where
  tmp_dir : String
  tests_dir : String
  lock_dir : String
deriving DecidableEq, Repr

structure JobPaths where
  test_data_dir : Option String
  artifact_dir_path : Option String
deriving DecidableEq, Repr

def charsStartsWith : List Char → List Char → Bool
| [], _ => true
| _ :: _, [] => false
| p :: ps, c :: cs => p == c && charsStartsWith ps cs

def pyReplaceCharsFuel (pattern repl : List Char) : Nat → List Char → List Char
| 0, s => s
| _ + 1, [] => []
| fuel + 1, c :: rest =>
  if pattern ≠ [] ∧ charsStartsWith pattern (c :: rest) then
    repl ++ pyReplaceCharsFuel pattern repl fuel ((c :: rest).drop pattern.length)
  else c :: pyReplaceCharsFuel pattern repl fuel rest

/-
pyReplace models Python str.replace: every non-overlapping occurrence of
pattern, scanned left to right, is replaced (the code only calls it with
the non-empty pattern /test_data_).  The fuel equals the string length,
which bounds the number of recursive steps since each step consumes at
least one character.
-/
def pyReplace (s pattern repl : String) : String :=
  String.mk (pyReplaceCharsFuel pattern.data repl.data s.data.length s.data)

def forbiddenCandidates (fs : FS) (job : Option JobPaths) : List String :=
  let base := [fs.tests_dir ++ "/stpd-cache", fs.tests_dir, fs.tmp_dir,
               fs.tests_dir ++ "/lunapark"]
  match job with
  | none => base
  | some j =>
    let withTd :=
      if pyTruthy j.test_data_dir then
        base ++ [j.test_data_dir.getD "",
                 pyReplace (j.test_data_dir.getD "") "/test_data_" "/"]
      else base
    if pyTruthy j.artifact_dir_path then withTd ++ [j.artifact_dir_path.getD ""]
    else withTd

def FilesystemCleanup.forbiddenDirs (resolve : String → String)
    (pathExists : String → Bool) (fs : FS) (job : Option JobPaths) : List String :=
  ((forbiddenCandidates fs job).filter pathExists).map resolve

/-
pathName models pathlib Path.name for the slash-terminated-free paths the
cleanup iterates over: the characters after the last slash.
-/
def pathName (p : String) : String :=
  String.mk ((p.data.reverse.takeWhile (fun c => c ≠ '/')).reverse)

def FilesystemCleanup.isForbiden (resolve : String → String)
    (forbidden : List String) (p : String) : Bool :=
  forbidden.contains (resolve p) || pathName p == "stpd-cache"

def insertByCtime (ctime : String → Int) (x : String) : List String → List String
| [] => [x]
| y :: l => if ctime x ≤ ctime y then x :: y :: l else y :: insertByCtime ctime x l

def sortByCtime (ctime : String → Int) : List String → List String
| [] => []
| x :: l => insertByCtime ctime x (sortByCtime ctime l)

def FilesystemCleanup.doCleanDeleted (ctime : String → Int)
    (collected : List String) (deleteCount : Nat) : List String :=
  (sortByCtime ctime collected).take deleteCount

structure CleanupEnv where
  resolve : String → String
  pathExists : String → Bool
  isDir : String → Bool
  isFile : String → Bool
  ctime : String → Int
  tmpChildren : List String
  testsChildren : List String
  stpdChildren : List String
  netortMatches : List String

def FilesystemCleanup.cleanTemporaryDirDeleted (env : CleanupEnv)
    (forbidden : List String) (k : Nat) : List String :=
  FilesystemCleanup.doCleanDeleted env.ctime
    (env.tmpChildren.filter
      (fun p => !(FilesystemCleanup.isForbiden env.resolve forbidden p))) k

def FilesystemCleanup.cleanTestsDirsDeleted (env : CleanupEnv)
    (forbidden : List String) (k : Nat) : List String :=
  FilesystemCleanup.doCleanDeleted env.ctime
    (env.testsChildren.filter
      (fun p => env.isDir p && !(FilesystemCleanup.isForbiden env.resolve forbidden p))) k

def FilesystemCleanup.cleanStpdCacheFilesDeleted (env : CleanupEnv)
    (forbidden : List String) (k : Nat) : List String :=
  FilesystemCleanup.doCleanDeleted env.ctime
    (env.stpdChildren.filter
      (fun p => env.isFile p && !(FilesystemCleanup.isForbiden env.resolve forbidden p))) k

def FilesystemCleanup.cleanNetortResourcesDeleted (env : CleanupEnv)
    (forbidden : List String) (k : Nat) : List String :=
  FilesystemCleanup.doCleanDeleted env.ctime
    (env.netortMatches.filter
      (fun p => env.isFile p && !(FilesystemCleanup.isForbiden env.resolve forbidden p))) k

def FilesystemCleanup.cleanupDeleted (env : CleanupEnv) (fs : FS) (job : Option JobPaths)
    (k1 k2 k3 k4 : Nat) : List String :=
  let forbidden := FilesystemCleanup.forbiddenDirs env.resolve env.pathExists fs job
  FilesystemCleanup.cleanTemporaryDirDeleted env forbidden k1
    ++ FilesystemCleanup.cleanStpdCacheFilesDeleted env forbidden k2
    ++ FilesystemCleanup.cleanNetortResourcesDeleted env forbidden k3
    ++ FilesystemCleanup.cleanTestsDirsDeleted env forbidden k4

theorem mem_insertByCtime (ctime : String → Int) (x y : String) (l : List String) :
    y ∈ insertByCtime ctime x l ↔ y = x ∨ y ∈ l := by
  induction l with
  | nil => simp [insertByCtime]
  | cons z l ih =>
    unfold insertByCtime
    by_cases h : ctime x ≤ ctime z
    · simp [h]
    · simp only [h, if_neg, not_false_iff, List.mem_cons, ih]
      tauto

theorem mem_sortByCtime (ctime : String → Int) (y : String) (l : List String) :
    y ∈ sortByCtime ctime l ↔ y ∈ l := by
  induction l with
  | nil => simp [sortByCtime]
  | cons x l ih =>
    unfold sortByCtime
    rw [mem_insertByCtime, ih]
    simp

theorem mem_doCleanDeleted (ctime : String → Int) (collected : List String)
    (k : Nat) (p : String) (hp : p ∈ FilesystemCleanup.doCleanDeleted ctime collected k) :
    p ∈ collected := by
  unfold FilesystemCleanup.doCleanDeleted at hp
  exact (mem_sortByCtime ctime p collected).mp (List.mem_of_mem_take hp)

theorem not_forbidden_of_filtered (resolve : String → String)
    (forbidden : List String) (p : String)
    (hres : ∀ q, resolve (resolve q) = resolve q)
    (hnf : FilesystemCleanup.isForbiden resolve forbidden p = false)
    (hmem : p ∈ forbidden)
    (himg : ∀ d ∈ forbidden, ∃ c, d = resolve c) : False := by
  unfold FilesystemCleanup.isForbiden at hnf
  rw [Bool.or_eq_false_iff] at hnf
  obtain ⟨c, hc⟩ := himg p hmem
  have hfix : resolve p = p := by
    rw [hc, hres]
  have : forbidden.contains (resolve p) = true := by
    rw [hfix]
    exact List.elem_eq_true_of_mem hmem
  rw [this] at hnf
  exact absurd hnf.1 (by simp)

/-- C7: no cleanup operation of FilesystemCleanup ever deletes a path of
the forbidden set (stpd-cache, tests_dir, tmp_dir, lunapark, the job
test_data_dir and its non-test_data_ twin, and artifact_dir_path, resolved
and existing at construction): assuming only that Path.resolve is
idempotent, every path deleted by clean_temporary_dir, clean_tests_dirs,
clean_stpd_cache_files, clean_netort_resources - and hence by cleanup() -
lies outside the forbidden set. -/
theorem filesystem_cleanup_never_deletes_forbidden (env : CleanupEnv)
    (fs : FS) (job : Option JobPaths) (k1 k2 k3 k4 : Nat)
    (hres : ∀ q, env.resolve (env.resolve q) = env.resolve q) :
    ∀ p ∈ FilesystemCleanup.cleanupDeleted env fs job k1 k2 k3 k4,
      p ∉ FilesystemCleanup.forbiddenDirs env.resolve env.pathExists fs job := by
  intro p hp hforb
  have himg : ∀ d ∈ FilesystemCleanup.forbiddenDirs env.resolve env.pathExists fs job,
      ∃ c, d = env.resolve c := by
    intro d hd
    unfold FilesystemCleanup.forbiddenDirs at hd
    rw [List.mem_map] at hd
    obtain ⟨c, _, hc⟩ := hd
    exact ⟨c, hc.symm⟩
  unfold FilesystemCleanup.cleanupDeleted at hp
  rw [List.mem_append, List.mem_append, List.mem_append] at hp
  have hnf : FilesystemCleanup.isForbiden env.resolve
      (FilesystemCleanup.forbiddenDirs env.resolve env.pathExists fs job) p = false := by
    rcases hp with ((h | h) | h) | h
    · have hc := mem_doCleanDeleted _ _ _ _ h
      have := (List.mem_filter.mp hc).2
      simpa using this
    · have hc := mem_doCleanDeleted _ _ _ _ h
      have := (List.mem_filter.mp hc).2
      rw [Bool.and_eq_true] at this
      simpa using this.2
    · have hc := mem_doCleanDeleted _ _ _ _ h
      have := (List.mem_filter.mp hc).2
      rw [Bool.and_eq_true] at this
      simpa using this.2
    · have hc := mem_doCleanDeleted _ _ _ _ h
      have := (List.mem_filter.mp hc).2
      rw [Bool.and_eq_true] at this
      simpa using this.2
  exact not_forbidden_of_filtered env.resolve _ p hres hnf hforb himg

/-- C7 witness: a concrete job environment (identity resolve, everything
existing) where the tmp directory holds the job test_data dir and a stale
entry: the deleted prefix avoids the forbidden set, in particular the
deleted stale entry is not the tests dir. -/
theorem filesystem_cleanup_never_deletes_forbidden_witness :
    (∀ q : String, id (id q) = id q)
    ∧ "/work/_tmp/stale" ∈ FilesystemCleanup.cleanupDeleted
        (CleanupEnv.mk id (fun _ => true) (fun _ => true) (fun _ => true) (fun _ => 0)
          ["/work/_tmp/stale", "/work/_tmp/test_data_42"] [] [] [])
        (FS.mk "/work/_tmp" "/work/tests" "/var/lock")
        (some (JobPaths.mk (some "/work/_tmp/test_data_42") (some "/work/tests/t42")))
        2 0 0 0
    ∧ "/work/_tmp/stale" ∉ FilesystemCleanup.forbiddenDirs id (fun _ => true)
        (FS.mk "/work/_tmp" "/work/tests" "/var/lock")
        (some (JobPaths.mk (some "/work/_tmp/test_data_42") (some "/work/tests/t42"))) := by
  refine ⟨fun q => rfl, by decide, ?_⟩
  exact filesystem_cleanup_never_deletes_forbidden
    (CleanupEnv.mk id (fun _ => true) (fun _ => true) (fun _ => true) (fun _ => 0)
      ["/work/_tmp/stale", "/work/_tmp/test_data_42"] [] [] [])
    (FS.mk "/work/_tmp" "/work/tests" "/var/lock")
    (some (JobPaths.mk (some "/work/_tmp/test_data_42") (some "/work/tests/t42")))
    2 0 0 0 (fun q => rfl) "/work/_tmp/stale" (by decide)

/-
Embedding of _relative_to and the uploaded-key computation of
S3ArtifactUploader.collect_artifacts from ulta/service/artifact_uploader.py
(lines 89-113).

collect_artifacts resolves the root and collects resolved file paths, so
paths are modelled as absolute normalized posix paths: lists of segments,
each segment a list of characters (the posix string of segs [a, b] is
/a/b).  On posix os.path.splitdrive returns an empty drive, os.sep is the
slash and os.altsep is None.  commonSegs is os.path.commonpath for two
absolute normalized paths (the longest common segment prefix); the
equality test commonpath((root, path)) == str(root) of the source is the
equality of that common prefix with the segments of root.  pyRelpath is
os.path.relpath for such paths.  stripSepLoop is the while loop stripping
leading separators; evaluating relpath[0] on an exhausted string raises
IndexError, modelled as Except.error.
-/

def joinSegs : List (List Char) → List Char
| [] => []
| [s] => s
| s :: s2 :: rest => s ++ '/' :: joinSegs (s2 :: rest)

def posixStr (segs : List (List Char)) : List Char :=
  '/' :: joinSegs segs

def commonSegs : List (List Char) → List (List Char) → List (List Char)
| [], _ => []
| _ :: _, [] => []
| a :: as, b :: bs => if a = b then a :: commonSegs as bs else []

def pyRelpath (pathSegs startSegs : List (List Char)) : List Char :=
  let common := commonSegs startSegs pathSegs
  let up := (startSegs.drop common.length).map (fun _ => ['.', '.'])
  let rel := up ++ pathSegs.drop common.length
  if rel.isEmpty then ['.'] else joinSegs rel

def stripSepLoop : List Char → Except Unit (List Char)
| [] => Except.error ()
| c :: rest => if c = '/' then stripSepLoop rest else Except.ok (c :: rest)

def ROOT_SEGMENT : List Char := ['_', '_', 'r', 'o', 'o', 't']

def relativeTo (pathSegs rootSegs : List (List Char)) : Except Unit (List Char) :=
  if commonSegs rootSegs pathSegs = rootSegs then
    Except.ok (pyRelpath pathSegs rootSegs)
  else
    match stripSepLoop (posixStr pathSegs) with
    | Except.error e => Except.error e
    | Except.ok stripped => Except.ok (joinSegs [ROOT_SEGMENT, stripped])

structure ArtifactSettings where
  output_name : List Char
  is_archive : Bool
deriving DecidableEq, Repr

/-
collectKey is the uploaded key of one collected file f under the resolved
root: when is_archive it is the archive entry name (arcname); otherwise
output_name + '/' + _relative_to(f, root) is yielded, the part after
output_name being the suffix the claim speaks about.
-/
def collectKey (settings : ArtifactSettings) (f root : List (List Char)) :
    Except Unit (List Char) :=
  if settings.is_archive then relativeTo f root
  else (relativeTo f root).map (fun rel => settings.output_name ++ '/' :: rel)

/-
specUploadKey is the specification-side description of the claim: the
relative path of p under r when p is inside r, and otherwise __root/
followed by p with its (posix-empty) drive removed and leading path
separators stripped.
-/
def specUploadKey (pathSegs rootSegs : List (List Char)) : List Char :=
  if rootSegs.isPrefixOf pathSegs then pyRelpath pathSegs rootSegs
  else ROOT_SEGMENT ++ '/' :: joinSegs pathSegs

theorem commonSegs_eq_iff_isPrefixOf (r p : List (List Char)) :
    (commonSegs r p = r) = (r.isPrefixOf p = true) := by
  induction r generalizing p with
  | nil => cases p <;> simp [commonSegs, List.isPrefixOf]
  | cons a as ih =>
    cases p with
    | nil => simp [commonSegs, List.isPrefixOf]
    | cons b bs =>
      unfold commonSegs List.isPrefixOf
      by_cases hab : a = b
      · subst hab
        simp only [if_pos rfl, List.cons.injEq, true_and, beq_self_eq_true,
          Bool.true_and]
        rw [← ih bs]
        simp
      · have : (a == b) = false := by
          simpa using hab
        simp [hab, this]

theorem stripSepLoop_posixStr (s : List Char) (rest : List (List Char))
    (hs : s ≠ []) (hslash : '/' ∉ s) :
    stripSepLoop (posixStr (s :: rest)) = Except.ok (joinSegs (s :: rest)) := by
  cases s with
  | nil => exact absurd rfl hs
  | cons c cs =>
    have hc : c ≠ '/' := by
      intro h
      exact hslash (h ▸ List.mem_cons_self c cs)
    unfold posixStr stripSepLoop
    simp only [if_pos rfl]
    cases rest with
    | nil =>
      unfold joinSegs stripSepLoop
      simp [hc]
    | cons s2 rest2 =>
      unfold joinSegs stripSepLoop
      simp [hc]

/-- C8: for every collected artifact path p (a nonempty resolved posix
path whose segments are nonempty and slash-free) and resolved root r, the
uploaded key - the archive entry name when is_archive, or the suffix after
output_name otherwise - equals the relative path of p under r when p is
inside r, and otherwise equals __root/ followed by p with its drive
removed and leading path separators stripped. -/
theorem artifact_upload_key_policy (settings : ArtifactSettings)
    (p r : List (List Char)) (s : List Char) (tailSegs : List (List Char))
    (hp : p = s :: tailSegs) (hs : s ≠ []) (hslash : '/' ∉ s) :
    relativeTo p r = Except.ok (specUploadKey p r)
    ∧ collectKey settings p r
      = (if settings.is_archive then Except.ok (specUploadKey p r)
         else Except.ok (settings.output_name ++ '/' :: specUploadKey p r)) := by
  have hmain : relativeTo p r = Except.ok (specUploadKey p r) := by
    unfold relativeTo specUploadKey
    by_cases hpre : r.isPrefixOf p
    · have hcs : commonSegs r p = r := by
        rw [commonSegs_eq_iff_isPrefixOf]
        exact hpre
      simp [hcs, hpre]
    · have hncs : ¬ (commonSegs r p = r) := by
        rw [commonSegs_eq_iff_isPrefixOf]
        exact hpre
      simp only [hncs, hpre, Bool.false_eq_true, if_neg, not_false_iff]
      subst hp
      rw [stripSepLoop_posixStr s tailSegs hs hslash]
      unfold joinSegs
      cases tailSegs <;> rfl
  refine ⟨hmain, ?_⟩
  unfold collectKey
  by_cases ha : settings.is_archive <;> simp [ha, hmain, Except.map]

/-- C8 witness: segment-level evaluation with root /work/tests/t42: the
collected file /work/tests/t42/tank.log maps to the key tank.log, and the
outside file /etc/hosts maps to __root/etc/hosts; quoting the file names
as character lists. -/
theorem artifact_upload_key_policy_witness :
    relativeTo [['w'], ['t'], ['4'], ['l', 'o', 'g']] [['w'], ['t'], ['4']]
      = Except.ok ['l', 'o', 'g']
    ∧ relativeTo [['e', 't', 'c'], ['h', 'o', 's', 't', 's']] [['w'], ['t'], ['4']]
      = Except.ok
          ['_', '_', 'r', 'o', 'o', 't', '/', 'e', 't', 'c', '/', 'h', 'o', 's', 't', 's']
    ∧ collectKey (ArtifactSettings.mk ['o', 'u', 't'] false)
        [['e', 't', 'c'], ['h', 'o', 's', 't', 's']] [['w'], ['t'], ['4']]
      = Except.ok
          ['o', 'u', 't', '/', '_', '_', 'r', 'o', 'o', 't', '/', 'e', 't', 'c', '/',
           'h', 'o', 's', 't', 's'] := by
  have h1 := artifact_upload_key_policy (ArtifactSettings.mk ['o', 'u', 't'] true)
    [['w'], ['t'], ['4'], ['l', 'o', 'g']] [['w'], ['t'], ['4']]
    ['w'] [['t'], ['4'], ['l', 'o', 'g']] rfl (by decide) (by decide)
  have h2 := artifact_upload_key_policy (ArtifactSettings.mk ['o', 'u', 't'] false)
    [['e', 't', 'c'], ['h', 'o', 's', 't', 's']] [['w'], ['t'], ['4']]
    ['e', 't', 'c'] [['h', 'o', 's', 't', 's']] rfl (by decide) (by decide)
  refine ⟨?_, ?_, ?_⟩
  · rw [h1.1]
    rfl
  · rw [h2.1]
    rfl
  · rw [h2.2]
    rfl

end Ulta
